import Mathlib

/-!
Shallow embedding of the e-commerce storefront (app/routes.py, app/database.py):
data model for the relational tables, the login / OTP flow, the cart
operations and the checkout transaction, together with theorems settling
the specification claims about them.

Machine conventions: integers of the store (prices, quantities, stock,
timestamps) are Lean Int; row identifiers are Nat; SQL NULL is Option;
the password hash primitive (SHA-256 in app/database.py) is an explicit
function parameter, since the spec treats it as an opaque one-way function.
Each route handler becomes a pure function from the relevant state to a
result paired with the updated state; the checkout transaction additionally
returns the trace of database operations it performed, and takes a fault
index modelling a persistence error raised by the n-th cursor.execute call
inside the transaction.
-/

namespace ECommerce

/-- Row of the users table (id, username, email, stored password hash). -/
structure UserRow where
  id : Nat
  username : String
  email : String
  password : String
  deriving Repr, DecidableEq

/-- Row of the login_attempts table; user_id is NULL when the username did
not resolve at insert time. -/
structure LoginAttempt where
  user_id : Option Nat
  username : String
  timestamp : Int
  deriving Repr, DecidableEq

/-- Row of the products table (the fields the embedded routes touch). -/
structure Product where
  id : Nat
  name : String
  price : Int
  stock : Int
  deriving Repr, DecidableEq

/-- Row of the cart table. -/
structure CartLine where
  id : Nat
  user_id : Nat
  product_id : Nat
  quantity : Int
  deriving Repr, DecidableEq

/-- Row of the orders table. -/
structure OrderRow where
  id : Nat
  user_id : Nat
  total_price : Int
  payment_status : String
  full_name : String
  address : String
  phone_number : String
  city : String
  postal_code : String
  payment_mode : String
  deriving Repr, DecidableEq

/-- Row of the order_items table. -/
structure OrderItem where
  order_id : Nat
  product_id : Nat
  quantity : Int
  price : Int
  deriving Repr, DecidableEq

/-- The shop database state: the four tables the cart and checkout routes
read and write, plus the AUTO_INCREMENT counters for orders and cart. -/
structure Db where
  products : List Product
  cart : List CartLine
  orders : List OrderRow
  order_items : List OrderItem
  nextOrderId : Nat
  nextCartId : Nat
  deriving Repr, DecidableEq

/-! ### Credential store (app/database.py and the login route, phase 1) -/

/-- Embeds verify_password from app/database.py: the stored hash equals the
hash of the provided password, for a given hash primitive. -/
def verify_password (hash : String → String) (stored provided : String) : Bool :=
  stored == hash provided

/-- Embeds the correlated subquery of the login route: the number of
login_attempts rows for this user id with timestamp inside the trailing
hour (timestamp > NOW() - INTERVAL 1 HOUR). -/
def recent_attempts (attempts : List LoginAttempt) (uid : Nat) (now : Int) : Nat :=
  (attempts.filter (fun a => a.user_id == some uid && decide (now - 3600 < a.timestamp))).length

/-- Outcome of phase 1 of the login route. -/
inductive LoginResult where
  | rateLimited
  | invalidCredentials
  | otpSent (user_id : Nat)
  deriving Repr, DecidableEq

/-- Embeds phase 1 of the login route (routes.py lines 86-127): look up the
user by username together with its trailing-hour attempt count; at least 5
recent attempts fail with the rate limit before the password is examined;
a verified password starts the OTP flow; otherwise a login_attempts row is
appended whose user_id is resolved by a subselect on the username. -/
def loginPhase1 (hash : String → String)
    (users : List UserRow) (attempts : List LoginAttempt)
    (now : Int) (username password : String) :
    LoginResult × List LoginAttempt :=
  match users.find? (fun u => u.username == username) with
  | some u =>
    if recent_attempts attempts u.id now ≥ 5 then
      (.rateLimited, attempts)
    else if verify_password hash u.password password then
      (.otpSent u.id, attempts)
    else
      (.invalidCredentials, attempts ++ [⟨some u.id, username, now⟩])
  | none =>
      (.invalidCredentials, attempts ++ [⟨none, username, now⟩])

/-! ### OTP session state machine (login route, phase 2) -/

/-- Session state of the login flow: anonymous, waiting on an OTP, or
authenticated. The otpPending fields are the session keys otp_user_id,
otp_code and otp_time. -/
inductive SessionState where
  | anonymous
  | otpPending (user_id : Nat) (code : String) (sentTime : Int)
  | loggedIn (user_id : Nat)
  deriving Repr, DecidableEq

/-- Outcome of an OTP verification attempt. -/
inductive OtpResult where
  | expired
  | authenticated (user_id : Nat)
  | invalidCode
  | missingUser
  | notPending
  deriving Repr, DecidableEq

/-- Embeds phase 2 of the login route (routes.py lines 53-83): with an OTP
pending, an attempt strictly more than 5 minutes (300 seconds) after
issuance clears the whole session; otherwise a matching code loads the user
row, logs the user in and pops every OTP key, while a mismatch leaves the
pending state for a retry. missingUser models the lookup of a since-deleted
user id, which raises before any session mutation. -/
def verifyOtp (users : List UserRow) (now : Int) (entered : String) :
    SessionState → OtpResult × SessionState
  | .otpPending uid code sent =>
    if 300 < now - sent then
      (.expired, .anonymous)
    else if entered == code then
      match users.find? (fun u => u.id == uid) with
      | some u => (.authenticated u.id, .loggedIn u.id)
      | none => (.missingUser, .otpPending uid code sent)
    else
      (.invalidCode, .otpPending uid code sent)
  | s => (.notPending, s)

/-! ### Cart aggregate: add_to_cart and update_cart_quantity -/

/-- Outcome of the add_to_cart route. -/
inductive AddToCartResult where
  | productNotFound
  | incremented
  | added
  deriving Repr, DecidableEq

/-- The SQL UPDATE of add_to_cart applied to one row: rows matching the
(user, product) pair get quantity + 1, other rows are untouched. -/
def bumpQty (user_id product_id : Nat) (c : CartLine) : CartLine :=
  if c.user_id == user_id && c.product_id == product_id then
    { c with quantity := c.quantity + 1 }
  else c

/-- Embeds the add_to_cart route (routes.py lines 349-394): an unknown
product id fails; if a cart row for the (user, product) pair exists its
quantity is incremented by 1, otherwise a fresh row with quantity 1 is
inserted. -/
def add_to_cart (db : Db) (user_id product_id : Nat) : AddToCartResult × Db :=
  match db.products.find? (fun p => p.id == product_id) with
  | none => (.productNotFound, db)
  | some _ =>
    match db.cart.find? (fun c => c.user_id == user_id && c.product_id == product_id) with
    | some _ =>
      (.incremented, { db with cart := db.cart.map (bumpQty user_id product_id) })
    | none =>
      (.added,
        { db with
            cart := db.cart ++ [⟨db.nextCartId, user_id, product_id, 1⟩],
            nextCartId := db.nextCartId + 1 })

/-- The cart rows of a given (user, product) pair. -/
def cartLinesFor (db : Db) (user_id product_id : Nat) : List CartLine :=
  db.cart.filter (fun c => c.user_id == user_id && c.product_id == product_id)

/-- Outcome of the update_cart_quantity route. -/
inductive UpdateQtyResult where
  | missingField
  | invalidQuantityValue
  | quantityTooSmall
  | lineNotFound
  | updated
  deriving Repr, DecidableEq

/-- Digit-list accumulator for the integer parse. -/
def parseNatAux : List Char → Nat → Option Nat
  | [], acc => some acc
  | c :: rest, acc =>
    if c.isDigit then parseNatAux rest (acc * 10 + (c.toNat - 48)) else none

/-- Models the Python int() conversion applied to a form field: an optional
leading minus sign followed by at least one decimal digit; anything else
raises ValueError, modelled as none. -/
def pyInt? (s : String) : Option Int :=
  match s.data with
  | [] => none
  | c :: rest =>
    if c = '-' then
      match rest with
      | [] => none
      | _ => (parseNatAux rest 0).map (fun n => -(n : Int))
    else (parseNatAux (c :: rest) 0).map (fun n => (n : Int))

/-- Embeds the update_cart_quantity route (routes.py lines 454-497): a
missing or empty form field fails; a quantity string that does not parse as
an integer fails (the ValueError branch); a parsed quantity of at most 0
fails; a cart row id not owned by the requesting user fails; otherwise the
owned row has its quantity set to the parsed value. -/
def update_cart_quantity (db : Db) (user_id : Nat)
    (cart_item_id : Option Nat) (quantity : Option String) : UpdateQtyResult × Db :=
  match cart_item_id, quantity with
  | some cid, some qs =>
    if qs.isEmpty then (.missingField, db)
    else
      match pyInt? qs with
      | none => (.invalidQuantityValue, db)
      | some q =>
        if q ≤ 0 then (.quantityTooSmall, db)
        else
          match db.cart.find? (fun c => c.id == cid && c.user_id == user_id) with
          | none => (.lineNotFound, db)
          | some _ =>
            (.updated, { db with cart := db.cart.map (fun c =>
                if c.id == cid && c.user_id == user_id then { c with quantity := q } else c) })
  | _, _ => (.missingField, db)

/-! ### Order transaction engine: the checkout route -/

/-- Row of the checkout cart query (routes.py lines 509-516): the cart join
products projection, including the per-line stock and the computed line
total price * quantity. -/
structure CartItem where
  id : Nat
  product_id : Nat
  name : String
  price : Int
  quantity : Int
  stock : Int
  total_price : Int
  deriving Repr, DecidableEq

/-- Embeds the checkout cart query: the cart rows of the user inner-joined
with products, in the order the rows are stored; a cart row whose product
id matches no product is dropped by the join. -/
def fetchCartItems (db : Db) (user_id : Nat) : List CartItem :=
  db.cart.filterMap (fun c =>
    if c.user_id == user_id then
      (db.products.find? (fun pr => pr.id == c.product_id)).map (fun pr =>
        { id := c.id, product_id := pr.id, name := pr.name, price := pr.price,
          quantity := c.quantity, stock := pr.stock,
          total_price := pr.price * c.quantity })
    else none)

/-- The checkout POST form; each field is request.form.get of the same key,
with payment_mode defaulting to COD in the route. -/
structure CheckoutForm where
  full_name : Option String
  address : Option String
  phone_number : Option String
  city : Option String
  postal_code : Option String
  payment_mode : String
  card_number : Option String
  upi_id : Option String
  deriving Repr, DecidableEq

/-- Python truthiness of an optional form field: present and non-empty. -/
def present : Option String → Bool
  | none => false
  | some s => !s.isEmpty

/-- The all() delivery-details check of the checkout route. -/
def deliveryComplete (f : CheckoutForm) : Bool :=
  present f.full_name && present f.address && present f.phone_number &&
    present f.city && present f.postal_code

/-- Database operations the checkout route performs, in order, as a trace:
the cart fetch, the transaction start (autocommit = False), each
cursor.execute that succeeded, and the final commit or rollback. -/
inductive Event where
  | fetchCart
  | beginTxn
  | execInsertOrder
  | stockCheck (product_id : Nat)
  | execInsertItem (product_id : Nat)
  | execDecStock (product_id : Nat)
  | execClearCart
  | commitTxn
  | rollbackTxn
  deriving Repr, DecidableEq

/-- Failure outcomes of the checkout route. persistFault models a generic
database error raised by one of the execute calls or the commit. -/
inductive CheckoutError where
  | emptyCart
  | missingDeliveryField
  | cardRequired
  | upiRequired
  | insufficientStock (name : String)
  | persistFault
  deriving Repr, DecidableEq

/-- Result of a checkout request: the rendered form page (GET), a failure,
or a placed order id. -/
inductive CheckoutResult where
  | page
  | failure (e : CheckoutError)
  | success (order_id : Nat)
  deriving Repr, DecidableEq

/-- Outcome of the checkout route: result, database state after the request
and the operation trace. -/
structure CheckoutOut where
  result : CheckoutResult
  db : Db
  events : List Event
  deriving Repr, DecidableEq

/-- The order total computed by the route: sum of the fetched line totals. -/
def cartTotal (db : Db) (user_id : Nat) : Int :=
  ((fetchCartItems db user_id).map (fun i => i.total_price)).sum

/-- The orders row the checkout INSERT writes (routes.py lines 559-577). -/
def orderRowOf (db : Db) (user_id : Nat) (f : CheckoutForm) : OrderRow :=
  { id := db.nextOrderId, user_id := user_id, total_price := cartTotal db user_id,
    payment_status := "Pending",
    full_name := f.full_name.getD "", address := f.address.getD "",
    phone_number := f.phone_number.getD "", city := f.city.getD "",
    postal_code := f.postal_code.getD "", payment_mode := f.payment_mode }

/-- The database right after the order INSERT inside the transaction. -/
def insertOrderDb (db : Db) (user_id : Nat) (f : CheckoutForm) : Db :=
  { db with
      orders := db.orders ++ [orderRowOf db user_id f],
      nextOrderId := db.nextOrderId + 1 }

/-- The order_items INSERT of the checkout loop for one line: the row
carries the line total of the cart snapshot as its price. -/
def insertItemDb (order_id : Nat) (item : CartItem) (db : Db) : Db :=
  { db with order_items := db.order_items ++
      [⟨order_id, item.product_id, item.quantity, item.total_price⟩] }

/-- The stock decrement UPDATE of the checkout loop for one line: the
products row of the line has its stock lowered by the line quantity. -/
def decStockDb (item : CartItem) (db : Db) : Db :=
  { db with products := db.products.map (fun pr =>
      if pr.id == item.product_id then { pr with stock := pr.stock - item.quantity } else pr) }

/-- Embeds the per-line loop of the checkout transaction (routes.py lines
580-596): for each fetched cart item in order, compare the requested
quantity against the stock captured by the fetch, raising on shortage; then
insert the order_items row and decrement the product stock. ctr numbers the
cursor.execute calls of the transaction; a call whose index equals the
fault parameter raises a persistence error. The returned trace lists the
operations performed. -/
def processItems (order_id : Nat) (fault : Option Nat) :
    List CartItem → Db → Nat → Except CheckoutError Db × List Event
  | [], db, _ => (.ok db, [])
  | item :: rest, db, ctr =>
    if item.stock < item.quantity then
      (.error (.insufficientStock item.name), [.stockCheck item.product_id])
    else if fault == some ctr then
      (.error .persistFault, [.stockCheck item.product_id])
    else if fault == some (ctr + 1) then
      (.error .persistFault, [.stockCheck item.product_id, .execInsertItem item.product_id])
    else
      let r := processItems order_id fault rest
        (decStockDb item (insertItemDb order_id item db)) (ctr + 2)
      (r.1, .stockCheck item.product_id :: .execInsertItem item.product_id ::
        .execDecStock item.product_id :: r.2)

/-- The trace the checkout loop produces on a list of lines it fully
processes: stock check, item insert and stock decrement per line, in list
order. -/
def itemEvents : List CartItem → List Event
  | [] => []
  | i :: rest => .stockCheck i.product_id :: .execInsertItem i.product_id ::
      .execDecStock i.product_id :: itemEvents rest

/-- Embeds the checkout route (routes.py lines 500-624). The cart is
fetched once, before anything else; an empty cart or a validation failure
returns before the transaction starts; otherwise autocommit is switched
off, the order row is inserted (cursor.execute number 0), the fetched lines
are processed (execute numbers 1 to 2n), the cart rows of the user are
deleted (execute number 2n + 1) and the transaction commits (a commit fault
carries number 2n + 2); any raise inside the transaction rolls every write
back, restoring the database as it was before the attempt. -/
def checkout (db : Db) (user_id : Nat) (form : Option CheckoutForm) (fault : Option Nat) :
    CheckoutOut :=
  if (fetchCartItems db user_id).isEmpty then
    ⟨.failure .emptyCart, db, [.fetchCart]⟩
  else
    match form with
    | none => ⟨.page, db, [.fetchCart]⟩
    | some f =>
      if !(deliveryComplete f) then ⟨.failure .missingDeliveryField, db, [.fetchCart]⟩
      else if f.payment_mode == "Card" && !(present f.card_number) then
        ⟨.failure .cardRequired, db, [.fetchCart]⟩
      else if f.payment_mode == "UPI" && !(present f.upi_id) then
        ⟨.failure .upiRequired, db, [.fetchCart]⟩
      else if fault == some 0 then
        ⟨.failure .persistFault, db, [.fetchCart, .beginTxn, .rollbackTxn]⟩
      else
        match processItems db.nextOrderId fault (fetchCartItems db user_id)
            (insertOrderDb db user_id f) 1 with
        | (.error e, evs) =>
          ⟨.failure e, db, [.fetchCart, .beginTxn, .execInsertOrder] ++ evs ++ [.rollbackTxn]⟩
        | (.ok db2, evs) =>
          if fault == some (1 + 2 * (fetchCartItems db user_id).length) then
            ⟨.failure .persistFault, db,
              [.fetchCart, .beginTxn, .execInsertOrder] ++ evs ++ [.rollbackTxn]⟩
          else if fault == some (2 + 2 * (fetchCartItems db user_id).length) then
            ⟨.failure .persistFault, db,
              [.fetchCart, .beginTxn, .execInsertOrder] ++ evs ++ [.execClearCart, .rollbackTxn]⟩
          else
            ⟨.success db.nextOrderId,
              { db2 with cart := db2.cart.filter (fun c => !(c.user_id == user_id)) },
              [.fetchCart, .beginTxn, .execInsertOrder] ++ evs ++ [.execClearCart, .commitTxn]⟩

/-- Modelled from the spec: the repository has no route that edits a
product price, so a price change (the operation claim C9 quantifies over)
is modelled as an UPDATE of the price column of the matching products row,
touching no other table. -/
def setProductPrice (db : Db) (product_id : Nat) (newPrice : Int) : Db :=
  { db with products := db.products.map (fun pr =>
      if pr.id == product_id then { pr with price := newPrice } else pr) }

/-- Checks that every fetchCart event of a trace is preceded by a beginTxn
event; the flag records whether a beginTxn has been seen. -/
def noFetchBeforeBegin : Bool → List Event → Bool
  | _, [] => true
  | seen, e :: rest =>
    if e == Event.fetchCart then seen && noFetchBeforeBegin seen rest
    else noFetchBeforeBegin (seen || e == Event.beginTxn) rest

/-- A trace reads the cart inside the transaction when no fetchCart event
occurs before the first beginTxn event. -/
def fetchInsideTxn (tr : List Event) : Bool :=
  noFetchBeforeBegin false tr

/-- Whether a list of product ids is in ascending order. -/
def isSortedAsc : List Nat → Bool
  | [] => true
  | [_] => true
  | a :: b :: rest => decide (a ≤ b) && isSortedAsc (b :: rest)

/-- Example shop: two products, and the cart of user 1 stores the line for
product 5 before the line for product 2; both lines are amply stocked. -/
def exDb : Db :=
  { products := [⟨5, "alpha", 4, 10⟩, ⟨2, "bravo", 3, 10⟩],
    cart := [⟨1, 1, 5, 1⟩, ⟨2, 1, 2, 1⟩],
    orders := [], order_items := [], nextOrderId := 1, nextCartId := 3 }

/-- Example checkout form with complete delivery details and COD payment. -/
def exForm : CheckoutForm :=
  { full_name := some "Jo Doe", address := some "1 Main St",
    phone_number := some "5550100", city := some "Town",
    postal_code := some "12345", payment_mode := "COD",
    card_number := none, upi_id := none }

/-- Example shop where the only cart line of user 1 requests quantity 3 of
a product with stock 1. -/
def exDb2 : Db :=
  { products := [⟨5, "alpha", 4, 1⟩],
    cart := [⟨1, 1, 5, 3⟩],
    orders := [], order_items := [], nextOrderId := 1, nextCartId := 2 }

/-! ### Theorems -/

/-! ### Claim C6: OTP expiry and single use -/

/-- Claim C6: an OTP verification attempt made strictly more than 5 minutes
after issuance is rejected as expired regardless of the submitted code, the
ephemeral OTP state is discarded and the session returns to anonymous; an
attempt at or before 5 minutes with a matching code authenticates the user
and purges the OTP state. -/
theorem C6_otp_expiry (users : List UserRow) (uid : Nat)
    (code entered : String) (sent now : Int) :
    (300 < now - sent →
      verifyOtp users now entered (.otpPending uid code sent) = (.expired, .anonymous)) ∧
    (∀ u, now - sent ≤ 300 → entered = code →
      users.find? (fun v => v.id == uid) = some u →
      verifyOtp users now entered (.otpPending uid code sent)
        = (.authenticated u.id, .loggedIn u.id)) := by
  constructor
  · intro hlate
    simp [verifyOtp, hlate]
  · intro u hontime hcode hfind
    have hnot : ¬ (300 < now - sent) := not_lt.mpr hontime
    simp [verifyOtp, hnot, hcode, hfind]

/-- Concrete instance of claim C6: with the code issued at time 0, an
attempt at 301 seconds is rejected as expired even though the code matches,
and an attempt at 300 seconds with the matching code authenticates. -/
theorem C6_otp_expiry_witness :
    (verifyOtp [⟨7, "alice", "alice at example", "h1"⟩] 301 "123456"
        (.otpPending 7 "123456" 0) = (.expired, .anonymous)) ∧
    (verifyOtp [⟨7, "alice", "alice at example", "h1"⟩] 300 "123456"
        (.otpPending 7 "123456" 0) = (.authenticated 7, .loggedIn 7)) :=
  ⟨(C6_otp_expiry [⟨7, "alice", "alice at example", "h1"⟩] 7 "123456" "123456" 0 301).1
      (by decide),
   (C6_otp_expiry [⟨7, "alice", "alice at example", "h1"⟩] 7 "123456" "123456" 0 300).2
      ⟨7, "alice", "alice at example", "h1"⟩ (by decide) rfl (by decide)⟩

/-! ### Claim C7: login rate limiting -/

/-- Claim C7: a login request for a resolved user with at least 5
login_attempts rows in the trailing 60 minutes fails rate-limited without
the password being consulted (the outcome is the same for every hash
primitive, in particular when the password is correct); below the
threshold, a password mismatch appends an attempt row keyed by the resolved
user id and fails with invalid credentials, and an unknown username appends
an attempt row with a NULL user id. -/
theorem C7_rate_limiting (hash : String → String) (users : List UserRow)
    (attempts : List LoginAttempt) (now : Int) (username password : String) :
    (∀ u, users.find? (fun v => v.username == username) = some u →
      5 ≤ recent_attempts attempts u.id now →
      loginPhase1 hash users attempts now username password = (.rateLimited, attempts)) ∧
    (∀ u, users.find? (fun v => v.username == username) = some u →
      recent_attempts attempts u.id now < 5 →
      verify_password hash u.password password = false →
      loginPhase1 hash users attempts now username password
        = (.invalidCredentials, attempts ++ [⟨some u.id, username, now⟩])) ∧
    (users.find? (fun v => v.username == username) = none →
      loginPhase1 hash users attempts now username password
        = (.invalidCredentials, attempts ++ [⟨none, username, now⟩])) := by
  refine ⟨?_, ?_, ?_⟩
  · intro u hfind hcount
    simp [loginPhase1, hfind, hcount]
  · intro u hfind hcount hverify
    have hnot : ¬ 5 ≤ recent_attempts attempts u.id now := not_le.mpr hcount
    simp [loginPhase1, hfind, hnot, hverify]
  · intro hfind
    simp [loginPhase1, hfind]

/-- Concrete instance of claim C7: a user with 5 failed attempts in the
last hour is rate-limited even under a hash primitive for which the
supplied password verifies, and with an empty ledger a mismatching password
appends the attempt row and fails with invalid credentials. -/
theorem C7_rate_limiting_witness :
    (loginPhase1 (fun _ => "h2") [⟨3, "bob", "bob at example", "h2"⟩]
      [⟨some 3, "bob", 3599⟩, ⟨some 3, "bob", 3598⟩, ⟨some 3, "bob", 3597⟩,
       ⟨some 3, "bob", 3596⟩, ⟨some 3, "bob", 3595⟩]
      3600 "bob" "pw" =
      (.rateLimited,
       [⟨some 3, "bob", 3599⟩, ⟨some 3, "bob", 3598⟩, ⟨some 3, "bob", 3597⟩,
        ⟨some 3, "bob", 3596⟩, ⟨some 3, "bob", 3595⟩])) ∧
    (loginPhase1 (fun _ => "other") [⟨3, "bob", "bob at example", "h2"⟩] [] 3600 "bob" "pw" =
      (.invalidCredentials, [⟨some 3, "bob", 3600⟩])) :=
  ⟨(C7_rate_limiting (fun _ => "h2") [⟨3, "bob", "bob at example", "h2"⟩]
      [⟨some 3, "bob", 3599⟩, ⟨some 3, "bob", 3598⟩, ⟨some 3, "bob", 3597⟩,
       ⟨some 3, "bob", 3596⟩, ⟨some 3, "bob", 3595⟩] 3600 "bob" "pw").1
      ⟨3, "bob", "bob at example", "h2"⟩ (by decide) (by decide),
   ((C7_rate_limiting (fun _ => "other") [⟨3, "bob", "bob at example", "h2"⟩]
      [] 3600 "bob" "pw").2.1
      ⟨3, "bob", "bob at example", "h2"⟩ (by decide) (by decide) (by decide))⟩

/-- Helper: the quantity bump commutes with filtering on the (user, product)
pair, because it never changes the key fields of a row. -/
theorem cartLines_filter_map_bump (l : List CartLine) (u p : Nat) :
    (l.map (bumpQty u p)).filter (fun c => c.user_id == u && c.product_id == p)
      = (l.filter (fun c => c.user_id == u && c.product_id == p)).map (bumpQty u p) := by
  induction l with
  | nil => rfl
  | cons a t ih =>
    cases hm : (a.user_id == u && a.product_id == p) with
    | true =>
      have hb : bumpQty u p a = { a with quantity := a.quantity + 1 } := by
        simp [bumpQty, hm]
      have hkeep : (({ a with quantity := a.quantity + 1 } : CartLine).user_id == u &&
          ({ a with quantity := a.quantity + 1 } : CartLine).product_id == p) = true := by
        simpa using hm
      simp only [List.map_cons, List.filter_cons, hb, hkeep, hm, if_true]
      rw [ih]
    | false =>
      have hb : bumpQty u p a = a := by
        simp [bumpQty, hm]
      simp only [List.map_cons, List.filter_cons, hb, hm, if_false]
      exact ih

/-- Helper: find? skips a prefix in which nothing matches. -/
theorem find?_append_of_none {α : Type} (p : α → Bool) (l₁ l₂ : List α)
    (h : l₁.find? p = none) : (l₁ ++ l₂).find? p = l₂.find? p := by
  induction l₁ with
  | nil => rfl
  | cons a t ih =>
    rw [List.cons_append]
    cases hp : p a with
    | true => rw [List.find?_cons_of_pos _ hp] at h; exact absurd h (by simp)
    | false =>
      rw [List.find?_cons_of_neg _ (by simp [hp])] at h
      rw [List.find?_cons_of_neg _ (by simp [hp])]
      exact ih h

/-! ### Claim C5: cart merge on add -/

/-- Claim C5: adding to the cart preserves at most one cart line per
(user, product) pair; an unknown product id fails with product-not-found
and leaves the state unchanged; and from a cart with no line for the pair,
adding the same product twice yields exactly one line whose quantity is the
sum of the two additions (each addition requests the default amount 1, the
only amount the route supports). -/
theorem C5_add_to_cart_merge (db : Db) (u p : Nat) :
    (db.products.find? (fun q => q.id == p) = none →
      add_to_cart db u p = (.productNotFound, db)) ∧
    ((cartLinesFor db u p).length ≤ 1 →
      (cartLinesFor (add_to_cart db u p).2 u p).length ≤ 1) ∧
    (∀ prod, db.products.find? (fun q => q.id == p) = some prod →
      db.cart.find? (fun c => c.user_id == u && c.product_id == p) = none →
      (cartLinesFor (add_to_cart (add_to_cart db u p).2 u p).2 u p).map
          (fun c => c.quantity) = [1 + 1]) := by
  refine ⟨?_, ?_, ?_⟩
  · intro hfind
    simp [add_to_cart, hfind]
  · intro hlen
    unfold cartLinesFor at hlen ⊢
    cases hfind : db.products.find? (fun q => q.id == p) with
    | none =>
      simp only [add_to_cart, hfind]
      exact hlen
    | some prod =>
      cases hcart : db.cart.find? (fun c => c.user_id == u && c.product_id == p) with
      | some c0 =>
        simp only [add_to_cart, hfind, hcart]
        rw [cartLines_filter_map_bump]
        simpa using hlen
      | none =>
        have hnil : db.cart.filter (fun c => c.user_id == u && c.product_id == p) = [] := by
          rw [List.filter_eq_nil_iff]
          exact List.find?_eq_none.mp hcart
        simp only [add_to_cart, hfind, hcart]
        rw [List.filter_append, hnil]
        simp
  · intro prod hfind hcart
    have hnil : db.cart.filter (fun c => c.user_id == u && c.product_id == p) = [] := by
      rw [List.filter_eq_nil_iff]
      exact List.find?_eq_none.mp hcart
    have hstep1 : add_to_cart db u p =
        (.added,
          { db with
              cart := db.cart ++ [⟨db.nextCartId, u, p, 1⟩],
              nextCartId := db.nextCartId + 1 }) := by
      simp [add_to_cart, hfind, hcart]
    rw [hstep1]
    have hnew : ((⟨db.nextCartId, u, p, 1⟩ : CartLine).user_id == u &&
        (⟨db.nextCartId, u, p, 1⟩ : CartLine).product_id == p) = true := by simp
    have hfind2 : List.find? (fun c => c.user_id == u && c.product_id == p)
        (db.cart ++ [(⟨db.nextCartId, u, p, 1⟩ : CartLine)]) = some ⟨db.nextCartId, u, p, 1⟩ := by
      rw [find?_append_of_none _ _ _ hcart]
      exact List.find?_cons_of_pos _ hnew
    unfold cartLinesFor
    simp only [add_to_cart, hfind, hfind2]
    rw [cartLines_filter_map_bump, List.filter_append, hnil]
    simp [bumpQty]

/-- Concrete instance of claim C5: in a shop with product 5 and an empty
cart, adding product 5 twice for user 1 leaves exactly one cart line for
the pair, of quantity 2, while adding the unknown product 9 fails and
changes nothing. -/
theorem C5_add_to_cart_merge_witness :
    (add_to_cart ⟨[⟨5, "alpha", 4, 10⟩], [], [], [], 1, 1⟩ 1 9
      = (.productNotFound, ⟨[⟨5, "alpha", 4, 10⟩], [], [], [], 1, 1⟩)) ∧
    (cartLinesFor (add_to_cart
        (add_to_cart ⟨[⟨5, "alpha", 4, 10⟩], [], [], [], 1, 1⟩ 1 5).2 1 5).2 1 5).map
      (fun c => c.quantity) = [1 + 1] :=
  ⟨(C5_add_to_cart_merge ⟨[⟨5, "alpha", 4, 10⟩], [], [], [], 1, 1⟩ 1 9).1 (by decide),
   (C5_add_to_cart_merge ⟨[⟨5, "alpha", 4, 10⟩], [], [], [], 1, 1⟩ 1 5).2.2
     ⟨5, "alpha", 4, 10⟩ (by decide) (by decide)⟩

/-! ### Claim C8: cart quantity update validation and ownership -/

/-- Claim C8: a cart quantity update fails on a non-numeric quantity, on a
quantity of at most 0, and on a cart line not owned by the requesting user,
leaving the database unchanged in every failure case; otherwise the owned
line has its quantity set to the requested value and every other line is
untouched. -/
theorem C8_update_cart_quantity_spec (db : Db) (uid cid : Nat) (qs : String) :
    (qs.isEmpty = false → pyInt? qs = none →
      update_cart_quantity db uid (some cid) (some qs) = (.invalidQuantityValue, db)) ∧
    (∀ q, qs.isEmpty = false → pyInt? qs = some q → q ≤ 0 →
      update_cart_quantity db uid (some cid) (some qs) = (.quantityTooSmall, db)) ∧
    (∀ q, qs.isEmpty = false → pyInt? qs = some q → 0 < q →
      db.cart.find? (fun c => c.id == cid && c.user_id == uid) = none →
      update_cart_quantity db uid (some cid) (some qs) = (.lineNotFound, db)) ∧
    (∀ q c0, qs.isEmpty = false → pyInt? qs = some q → 0 < q →
      db.cart.find? (fun c => c.id == cid && c.user_id == uid) = some c0 →
      (update_cart_quantity db uid (some cid) (some qs)).1 = .updated ∧
      ∀ c ∈ (update_cart_quantity db uid (some cid) (some qs)).2.cart,
        (c.id = cid ∧ c.user_id = uid → c.quantity = q) ∧
        (¬ (c.id = cid ∧ c.user_id = uid) → c ∈ db.cart)) := by
  refine ⟨?_, ?_, ?_, ?_⟩
  · intro hne hparse
    simp [update_cart_quantity, hne, hparse]
  · intro q hne hparse hle
    simp [update_cart_quantity, hne, hparse, hle]
  · intro q hne hparse hpos hfind
    simp [update_cart_quantity, hne, hparse, not_le.mpr hpos, hfind]
  · intro q c0 hne hparse hpos hfind
    have hupd : update_cart_quantity db uid (some cid) (some qs) =
        (.updated, { db with cart := db.cart.map (fun c =>
          if c.id == cid && c.user_id == uid then { c with quantity := q } else c) }) := by
      simp [update_cart_quantity, hne, hparse, not_le.mpr hpos, hfind]
    rw [hupd]
    refine ⟨rfl, ?_⟩
    intro c hc
    simp only [List.mem_map] at hc
    obtain ⟨c1, hc1, hc1e⟩ := hc
    by_cases hm : (c1.id == cid && c1.user_id == uid) = true
    · have hce : c = { c1 with quantity := q } := by
        rw [← hc1e]; simp [hm]
      have hid : c1.id = cid ∧ c1.user_id = uid := by
        simpa using hm
      subst hce
      exact ⟨fun _ => rfl, fun habs => absurd ⟨hid.1, hid.2⟩ habs⟩
    · have hce : c = c1 := by
        rw [← hc1e]; simp [hm]
      subst hce
      constructor
      · intro habs
        exact absurd (by simpa using habs) hm
      · intro _
        exact hc1

/-- Concrete instances of claim C8 on a one-line cart: a non-numeric
quantity, a zero quantity and a foreign cart line id each fail and leave
the database unchanged, and a valid update reports success. -/
theorem C8_update_cart_quantity_witness :
    (update_cart_quantity ⟨[⟨5, "alpha", 4, 10⟩], [⟨1, 1, 5, 1⟩], [], [], 1, 2⟩ 1
        (some 1) (some "abc")
      = (.invalidQuantityValue, ⟨[⟨5, "alpha", 4, 10⟩], [⟨1, 1, 5, 1⟩], [], [], 1, 2⟩)) ∧
    (update_cart_quantity ⟨[⟨5, "alpha", 4, 10⟩], [⟨1, 1, 5, 1⟩], [], [], 1, 2⟩ 1
        (some 1) (some "0")
      = (.quantityTooSmall, ⟨[⟨5, "alpha", 4, 10⟩], [⟨1, 1, 5, 1⟩], [], [], 1, 2⟩)) ∧
    (update_cart_quantity ⟨[⟨5, "alpha", 4, 10⟩], [⟨1, 1, 5, 1⟩], [], [], 1, 2⟩ 1
        (some 99) (some "4")
      = (.lineNotFound, ⟨[⟨5, "alpha", 4, 10⟩], [⟨1, 1, 5, 1⟩], [], [], 1, 2⟩)) ∧
    (update_cart_quantity ⟨[⟨5, "alpha", 4, 10⟩], [⟨1, 1, 5, 1⟩], [], [], 1, 2⟩ 1
        (some 1) (some "4")).1 = .updated :=
  ⟨(C8_update_cart_quantity_spec ⟨[⟨5, "alpha", 4, 10⟩], [⟨1, 1, 5, 1⟩], [], [], 1, 2⟩
      1 1 "abc").1 (by decide) (by decide),
   (C8_update_cart_quantity_spec ⟨[⟨5, "alpha", 4, 10⟩], [⟨1, 1, 5, 1⟩], [], [], 1, 2⟩
      1 1 "0").2.1 0 (by decide) (by decide) (by decide),
   (C8_update_cart_quantity_spec ⟨[⟨5, "alpha", 4, 10⟩], [⟨1, 1, 5, 1⟩], [], [], 1, 2⟩
      1 99 "4").2.2.1 4 (by decide) (by decide) (by decide) (by decide),
   ((C8_update_cart_quantity_spec ⟨[⟨5, "alpha", 4, 10⟩], [⟨1, 1, 5, 1⟩], [], [], 1, 2⟩
      1 1 "4").2.2.2 4 ⟨1, 1, 5, 1⟩ (by decide) (by decide) (by decide) (by decide)).1⟩

/-! ### Helper lemmas for the checkout transaction -/

theorem none_beq_some (n : Nat) : ((none : Option Nat) == some n) = false := rfl

@[simp] theorem insertItemDb_order_items (order_id : Nat) (item : CartItem) (db : Db) :
    (insertItemDb order_id item db).order_items = db.order_items ++
      [⟨order_id, item.product_id, item.quantity, item.total_price⟩] := rfl

@[simp] theorem insertItemDb_orders (order_id : Nat) (item : CartItem) (db : Db) :
    (insertItemDb order_id item db).orders = db.orders := rfl

@[simp] theorem insertItemDb_cart (order_id : Nat) (item : CartItem) (db : Db) :
    (insertItemDb order_id item db).cart = db.cart := rfl

@[simp] theorem insertItemDb_nextOrderId (order_id : Nat) (item : CartItem) (db : Db) :
    (insertItemDb order_id item db).nextOrderId = db.nextOrderId := rfl

@[simp] theorem decStockDb_order_items (item : CartItem) (db : Db) :
    (decStockDb item db).order_items = db.order_items := rfl

@[simp] theorem decStockDb_orders (item : CartItem) (db : Db) :
    (decStockDb item db).orders = db.orders := rfl

@[simp] theorem decStockDb_cart (item : CartItem) (db : Db) :
    (decStockDb item db).cart = db.cart := rfl

@[simp] theorem decStockDb_nextOrderId (item : CartItem) (db : Db) :
    (decStockDb item db).nextOrderId = db.nextOrderId := rfl

@[simp] theorem insertOrderDb_order_items (db : Db) (uid : Nat) (f : CheckoutForm) :
    (insertOrderDb db uid f).order_items = db.order_items := rfl

@[simp] theorem insertOrderDb_orders (db : Db) (uid : Nat) (f : CheckoutForm) :
    (insertOrderDb db uid f).orders = db.orders ++ [orderRowOf db uid f] := rfl

@[simp] theorem insertOrderDb_cart (db : Db) (uid : Nat) (f : CheckoutForm) :
    (insertOrderDb db uid f).cart = db.cart := rfl

/-- Helper: the checkout loop never emits a cart-fetch event. -/
theorem fetchCart_not_mem_processItems (order_id : Nat) (fault : Option Nat)
    (items : List CartItem) (db : Db) (ctr : Nat) :
    Event.fetchCart ∉ (processItems order_id fault items db ctr).2 := by
  induction items generalizing db ctr with
  | nil => simp [processItems]
  | cons item rest ih =>
    by_cases hst : item.stock < item.quantity
    · simp [processItems, if_pos hst]
    · cases hf1 : (fault == some ctr) with
      | true => simp [processItems, if_neg hst, hf1]
      | false =>
        cases hf2 : (fault == some (ctr + 1)) with
        | true => simp [processItems, if_neg hst, hf1, hf2]
        | false =>
          simp only [processItems, if_neg hst, hf1, hf2, Bool.false_eq_true, if_false,
            List.mem_cons]
          push_neg
          exact ⟨by simp, by simp, by simp,
            ih (decStockDb item (insertItemDb order_id item db)) (ctr + 2)⟩

/-- Helper: when the checkout loop completes, the output state extends the
order_items table by exactly one row per line, in list order, carrying the
line total as price; the orders, cart and order counter are untouched;
every processed line was within the fetched stock; and the trace lists the
three operations per line in order. -/
theorem processItems_ok_spec (order_id : Nat) (fault : Option Nat) (items : List CartItem)
    (db db2 : Db) (ctr : Nat) (evs : List Event)
    (h : processItems order_id fault items db ctr = (.ok db2, evs)) :
    db2.order_items = db.order_items ++ items.map (fun i =>
      (⟨order_id, i.product_id, i.quantity, i.total_price⟩ : OrderItem)) ∧
    db2.orders = db.orders ∧ db2.cart = db.cart ∧ db2.nextOrderId = db.nextOrderId ∧
    (∀ i ∈ items, i.quantity ≤ i.stock) ∧ evs = itemEvents items := by
  induction items generalizing db ctr evs with
  | nil =>
    simp only [processItems] at h
    obtain ⟨h1, h2⟩ := Prod.mk.injEq .. ▸ h
    cases h1
    exact ⟨by simp, rfl, rfl, rfl, by simp, by simp [itemEvents, h2]⟩
  | cons item rest ih =>
    by_cases hst : item.stock < item.quantity
    · simp only [processItems, if_pos hst] at h
      exact absurd h (by simp)
    · cases hf1 : (fault == some ctr) with
      | true =>
        simp only [processItems, if_neg hst, hf1] at h
        exact absurd h (by simp)
      | false =>
        cases hf2 : (fault == some (ctr + 1)) with
        | true =>
          simp only [processItems, if_neg hst, hf1, hf2] at h
          exact absurd h (by simp)
        | false =>
          simp only [processItems, if_neg hst, hf1, hf2, Bool.false_eq_true, if_false] at h
          have h1 : (processItems order_id fault rest
              (decStockDb item (insertItemDb order_id item db)) (ctr + 2)).1 = .ok db2 := by
            have := congrArg Prod.fst h
            simpa using this
          have h2 : Event.stockCheck item.product_id :: Event.execInsertItem item.product_id ::
              Event.execDecStock item.product_id :: (processItems order_id fault rest
                (decStockDb item (insertItemDb order_id item db)) (ctr + 2)).2 = evs := by
            have := congrArg Prod.snd h
            simpa using this
          have hp : processItems order_id fault rest
              (decStockDb item (insertItemDb order_id item db)) (ctr + 2)
              = (.ok db2, (processItems order_id fault rest
                  (decStockDb item (insertItemDb order_id item db)) (ctr + 2)).2) :=
            Prod.ext h1 rfl
          obtain ⟨hoi, hor, hca, hni, hall, hev⟩ :=
            ih (decStockDb item (insertItemDb order_id item db)) (ctr + 2) _ hp
          refine ⟨?_, ?_, ?_, ?_, ?_, ?_⟩
          · rw [hoi]
            simp [List.append_assoc]
          · rw [hor]; simp
          · rw [hca]; simp
          · rw [hni]; simp
          · intro i hi
            rcases List.mem_cons.mp hi with rfl | hm
            · exact not_lt.mp hst
            · exact hall i hm
          · rw [← h2, hev, itemEvents]

/-- Helper: a cart with a line whose quantity exceeds the fetched stock
makes the checkout loop raise insufficient stock for such a line, whatever
state and counter it starts from, when no persistence fault is injected. -/
theorem processItems_overstock (order_id : Nat) (items : List CartItem) (db : Db) (ctr : Nat)
    (h : ∃ i ∈ items, i.stock < i.quantity) :
    ∃ j ∈ items, j.stock < j.quantity ∧ ∃ evs,
      processItems order_id none items db ctr
        = (.error (.insufficientStock j.name), evs) := by
  induction items generalizing db ctr with
  | nil => simp at h
  | cons item rest ih =>
    by_cases hst : item.stock < item.quantity
    · exact ⟨item, by simp, hst, [.stockCheck item.product_id],
        by simp [processItems, if_pos hst]⟩
    · have hex : ∃ i ∈ rest, i.stock < i.quantity := by
        rcases h with ⟨i, hmem, hi⟩
        rcases List.mem_cons.mp hmem with rfl | hm
        · exact absurd hi hst
        · exact ⟨i, hm, hi⟩
      obtain ⟨j, hjm, hjs, evs0, heq⟩ :=
        ih (decStockDb item (insertItemDb order_id item db)) (ctr + 2) hex
      refine ⟨j, List.mem_cons_of_mem _ hjm, hjs,
        Event.stockCheck item.product_id :: Event.execInsertItem item.product_id ::
          Event.execDecStock item.product_id :: evs0, ?_⟩
      simp only [processItems, if_neg hst, none_beq_some, Bool.false_eq_true, if_false, heq]

/-- Helper: every row of the checkout cart query joins one cart line of the
user with its product, copying stock, unit price and the computed total. -/
theorem fetchCartItems_mem_spec (db : Db) (uid : Nat) (i : CartItem)
    (h : i ∈ fetchCartItems db uid) :
    ∃ p ∈ db.products, ∃ c ∈ db.cart, c.user_id = uid ∧ p.id = c.product_id ∧
      i.product_id = p.id ∧ i.stock = p.stock ∧ i.price = p.price ∧
      i.quantity = c.quantity ∧ i.total_price = p.price * c.quantity := by
  unfold fetchCartItems at h
  rw [List.mem_filterMap] at h
  obtain ⟨c, hc, hf⟩ := h
  by_cases hu : (c.user_id == uid) = true
  · rw [if_pos hu] at hf
    rw [Option.map_eq_some'] at hf
    obtain ⟨p, hfind, hpi⟩ := hf
    have hpmem : p ∈ db.products := List.mem_of_find?_eq_some hfind
    have hpid : (p.id == c.product_id) = true :=
      List.find?_some (p := fun pr : Product => pr.id == c.product_id) hfind
    refine ⟨p, hpmem, c, hc, by simpa using hu, by simpa using hpid, ?_, ?_, ?_, ?_, ?_⟩
    · rw [← hpi]
    · rw [← hpi]
    · rw [← hpi]
    · rw [← hpi]
    · rw [← hpi]
  · rw [if_neg hu] at hf
    exact absurd hf (by simp)

/-- Helper: every failing checkout leaves the database exactly as it was,
whatever the failure and wherever a persistence fault strikes, because
validation failures return before any write and transaction failures roll
back. -/
theorem checkout_failure_db (db : Db) (uid : Nat) (form : Option CheckoutForm)
    (fault : Option Nat) (e : CheckoutError)
    (h : (checkout db uid form fault).result = .failure e) :
    (checkout db uid form fault).db = db := by
  revert h
  simp only [checkout]
  split
  · intro _; rfl
  split
  · intro h; exact absurd h (by simp)
  split
  · intro _; rfl
  split
  · intro _; rfl
  split
  · intro _; rfl
  split
  · intro _; rfl
  split
  · intro _; rfl
  split
  · intro _; rfl
  split
  · intro _; rfl
  intro h
  exact absurd h (by simp)

/-- Helper: a successful checkout is exactly a completed transaction: the
order id is the order counter of the input state, the loop completed from
the state holding the inserted order row, and the final state is the loop
output with the cart rows of the user deleted. -/
theorem checkout_success_shape (db : Db) (uid : Nat) (f : CheckoutForm) (fault : Option Nat)
    (oid : Nat)
    (h : (checkout db uid (some f) fault).result = .success oid) :
    oid = db.nextOrderId ∧
    ∃ db2 evs,
      processItems db.nextOrderId fault (fetchCartItems db uid) (insertOrderDb db uid f) 1
        = (.ok db2, evs) ∧
      (checkout db uid (some f) fault).db
        = { db2 with cart := db2.cart.filter (fun c => !(c.user_id == uid)) } ∧
      (checkout db uid (some f) fault).events
        = [.fetchCart, .beginTxn, .execInsertOrder] ++ evs ++ [.execClearCart, .commitTxn] := by
  revert h
  simp only [checkout]
  split
  · intro h; exact absurd h (by simp)
  split
  · intro h; exact absurd h (by simp)
  split
  · intro h; exact absurd h (by simp)
  split
  · intro h; exact absurd h (by simp)
  split
  · intro h; exact absurd h (by simp)
  split
  · intro h; exact absurd h (by simp)
  next db2 evs heq =>
    split
    · intro h; exact absurd h (by simp)
    split
    · intro h; exact absurd h (by simp)
    intro h
    have hoid : oid = db.nextOrderId := by
      have := h
      simp at this
      exact this.symm
    exact ⟨hoid, db2, evs, heq, rfl, rfl⟩

/-! ### Claim C2: checkout atomicity -/

/-- Claim C2: a checkout attempt that fails at any point, from validation
through the per-line loop to a persistence fault at any execute or at the
commit, leaves the orders, order_items, products and cart tables exactly as
they were before the attempt. -/
theorem C2_checkout_atomic_rollback (db : Db) (uid : Nat) (form : Option CheckoutForm)
    (fault : Option Nat) (e : CheckoutError)
    (h : (checkout db uid form fault).result = .failure e) :
    (checkout db uid form fault).db.orders = db.orders ∧
    (checkout db uid form fault).db.order_items = db.order_items ∧
    (checkout db uid form fault).db.products = db.products ∧
    (checkout db uid form fault).db.cart = db.cart := by
  rw [checkout_failure_db db uid form fault e h]
  exact ⟨rfl, rfl, rfl, rfl⟩

/-- Concrete instance of claim C2: the checkout of a cart requesting 3
units of a product with stock 1 fails inside the transaction, after the
order insert, and every table is exactly as before the attempt. -/
theorem C2_checkout_atomic_rollback_witness :
    (checkout exDb2 1 (some exForm) none).db.orders = exDb2.orders ∧
    (checkout exDb2 1 (some exForm) none).db.order_items = exDb2.order_items ∧
    (checkout exDb2 1 (some exForm) none).db.products = exDb2.products ∧
    (checkout exDb2 1 (some exForm) none).db.cart = exDb2.cart :=
  C2_checkout_atomic_rollback exDb2 1 (some exForm) none
    (.insufficientStock "alpha") (by decide)

/-! ### Claim C3: where the cart snapshot is read -/

/-- Claim C3 counterexample: on a concrete two-line cart the checkout
succeeds, a transaction is started, and yet the trace reads the cart before
the first beginTxn event, refuting the claim that the cart snapshot and
stock are fetched inside the transaction boundary. -/
theorem C3_counterexample_prefetch :
    (checkout exDb 1 (some exForm) none).result = .success 1 ∧
    Event.beginTxn ∈ (checkout exDb 1 (some exForm) none).events ∧
    fetchInsideTxn (checkout exDb 1 (some exForm) none).events = false := by
  decide

/-- Claim C3 as amended: every checkout reads the cart snapshot exactly
once, as its very first operation, before the transaction begins, and that
pre-transaction read is the one reused inside the transaction (no further
fetchCart event ever occurs). -/
theorem C3_amended_single_prefetch (db : Db) (uid : Nat) (form : Option CheckoutForm)
    (fault : Option Nat) :
    (checkout db uid form fault).events.head? = some .fetchCart ∧
    Event.fetchCart ∉ (checkout db uid form fault).events.tail := by
  simp only [checkout]
  split
  · exact ⟨rfl, by simp⟩
  split
  · exact ⟨rfl, by simp⟩
  next f =>
    split
    · exact ⟨rfl, by simp⟩
    split
    · exact ⟨rfl, by simp⟩
    split
    · exact ⟨rfl, by simp⟩
    split
    · exact ⟨rfl, by simp⟩
    split
    · next e evs heq =>
      have hnm : Event.fetchCart ∉ evs := by
        have h0 := fetchCart_not_mem_processItems db.nextOrderId fault
          (fetchCartItems db uid) (insertOrderDb db uid f) 1
        rw [heq] at h0
        simpa using h0
      exact ⟨rfl, by simp [hnm]⟩
    next db2 evs heq =>
      have hnm : Event.fetchCart ∉ evs := by
        have h0 := fetchCart_not_mem_processItems db.nextOrderId fault
          (fetchCartItems db uid) (insertOrderDb db uid f) 1
        rw [heq] at h0
        simpa using h0
      split
      · exact ⟨rfl, by simp [hnm]⟩
      split
      · exact ⟨rfl, by simp [hnm]⟩
      exact ⟨rfl, by simp [hnm]⟩

/-! ### Claim C4: processing order of the cart lines -/

/-- Claim C4 counterexample: on a concrete cart storing the line for
product 5 before the line for product 2, a successful checkout records the
order items as product 5 first, then product 2 - not ascending product id,
refuting the claim that lines are processed in ascending product id. -/
theorem C4_counterexample_not_sorted :
    (checkout exDb 1 (some exForm) none).result = .success 1 ∧
    (checkout exDb 1 (some exForm) none).db.order_items.map (fun oi => oi.product_id)
      = [5, 2] ∧
    isSortedAsc ((checkout exDb 1 (some exForm) none).db.order_items.map
      (fun oi => oi.product_id)) = false := by
  decide

/-- Claim C4 as amended: the cart lines of a checkout are processed in the
order the cart query returns them (the stored row order of the cart join),
with no sorting applied: a successful checkout appends one order item per
fetched line in exactly that order, and its trace performs the stock check,
item insert and stock decrement per line in exactly that order. -/
theorem C4_amended_fetch_order_processing (db : Db) (uid : Nat) (f : CheckoutForm) (oid : Nat)
    (h : (checkout db uid (some f) none).result = .success oid) :
    (checkout db uid (some f) none).db.order_items
      = db.order_items ++ (fetchCartItems db uid).map (fun i =>
          (⟨oid, i.product_id, i.quantity, i.total_price⟩ : OrderItem)) ∧
    (checkout db uid (some f) none).events
      = [.fetchCart, .beginTxn, .execInsertOrder] ++ itemEvents (fetchCartItems db uid)
          ++ [.execClearCart, .commitTxn] := by
  obtain ⟨hoid, db2, evs, hp, hdb, hev⟩ := checkout_success_shape db uid f none oid h
  obtain ⟨hoi, hor, hca, hni, hall, hevs⟩ := processItems_ok_spec _ _ _ _ _ _ _ hp
  subst hoid
  constructor
  · rw [hdb]
    show db2.order_items = _
    rw [hoi]
    simp
  · rw [hev, hevs]

/-- Concrete instance of the amended claim C4 at the two-line example cart:
the order items and the trace follow the stored cart order (product 5, then
product 2). -/
theorem C4_amended_fetch_order_witness :
    (checkout exDb 1 (some exForm) none).db.order_items
      = exDb.order_items ++ (fetchCartItems exDb 1).map (fun i =>
          (⟨1, i.product_id, i.quantity, i.total_price⟩ : OrderItem)) ∧
    (checkout exDb 1 (some exForm) none).events
      = [.fetchCart, .beginTxn, .execInsertOrder] ++ itemEvents (fetchCartItems exDb 1)
          ++ [.execClearCart, .commitTxn] :=
  C4_amended_fetch_order_processing exDb 1 exForm 1 (by decide)

/-! ### Claim C1: insufficient stock aborts the checkout -/

/-- Claim C1: a checkout whose fetched cart has a line requesting more than
the available stock fails with insufficient stock naming such a product,
and persists nothing (the database is exactly the input database); and no
successful checkout ever records an order item whose quantity exceeds the
stock the product row held when the transaction committed. -/
theorem C1_insufficient_stock_guarantee (db : Db) (uid : Nat) (f : CheckoutForm) :
    ((fetchCartItems db uid).any (fun i => decide (i.stock < i.quantity)) = true →
      deliveryComplete f = true →
      (f.payment_mode == "Card" && !(present f.card_number)) = false →
      (f.payment_mode == "UPI" && !(present f.upi_id)) = false →
      (∃ i ∈ fetchCartItems db uid, i.stock < i.quantity ∧
        (checkout db uid (some f) none).result = .failure (.insufficientStock i.name)) ∧
      (checkout db uid (some f) none).db = db) ∧
    (∀ oid, (checkout db uid (some f) none).result = .success oid →
      ∃ newItems, (checkout db uid (some f) none).db.order_items
          = db.order_items ++ newItems ∧
        ∀ oi ∈ newItems, ∃ p ∈ db.products, p.id = oi.product_id ∧ oi.quantity ≤ p.stock) := by
  constructor
  · intro hany hdel hcard hupi
    have hex : ∃ i ∈ fetchCartItems db uid, i.stock < i.quantity := by
      simpa using List.any_eq_true.mp hany
    obtain ⟨j, hjm, hjs, evs, heq⟩ :=
      processItems_overstock db.nextOrderId (fetchCartItems db uid)
        (insertOrderDb db uid f) 1 hex
    have hnonempty : (fetchCartItems db uid).isEmpty = false := by
      cases hl : fetchCartItems db uid with
      | nil => rw [hl] at hjm; cases hjm
      | cons a t => simp
    have hrun : checkout db uid (some f) none =
        ⟨.failure (.insufficientStock j.name), db,
          [.fetchCart, .beginTxn, .execInsertOrder] ++ evs ++ [.rollbackTxn]⟩ := by
      simp only [checkout, hnonempty, hdel, hcard, hupi, none_beq_some, heq,
        Bool.false_eq_true, Bool.not_true, if_false]
    exact ⟨⟨j, hjm, hjs, by rw [hrun]⟩, by rw [hrun]⟩
  · intro oid h
    obtain ⟨hoid, db2, evs, hp, hdb, hev⟩ := checkout_success_shape db uid f none oid h
    obtain ⟨hoi, _, _, _, hall, _⟩ := processItems_ok_spec _ _ _ _ _ _ _ hp
    refine ⟨(fetchCartItems db uid).map (fun i =>
        (⟨db.nextOrderId, i.product_id, i.quantity, i.total_price⟩ : OrderItem)), ?_, ?_⟩
    · rw [hdb]
      show db2.order_items = _
      rw [hoi]
      simp
    · intro oi hoim
      rw [List.mem_map] at hoim
      obtain ⟨i, him, hoie⟩ := hoim
      obtain ⟨p, hpm, c, hcm, hcu, hpc, hipid, hist, hipr, hiq, hitp⟩ :=
        fetchCartItems_mem_spec db uid i him
      refine ⟨p, hpm, ?_, ?_⟩
      · rw [← hoie]
        exact hipid.symm
      · rw [← hoie]
        have hq := hall i him
        rw [hist] at hq
        exact hq

/-- Concrete instances of claim C1: the over-stocked one-line cart fails
with insufficient stock for product alpha and leaves the database intact,
and the successful two-line checkout records only quantities within the
stock of the input state. -/
theorem C1_insufficient_stock_guarantee_witness :
    ((∃ i ∈ fetchCartItems exDb2 1, i.stock < i.quantity ∧
        (checkout exDb2 1 (some exForm) none).result
          = .failure (.insufficientStock i.name)) ∧
      (checkout exDb2 1 (some exForm) none).db = exDb2) ∧
    (∃ newItems, (checkout exDb 1 (some exForm) none).db.order_items
        = exDb.order_items ++ newItems ∧
      ∀ oi ∈ newItems, ∃ p ∈ exDb.products, p.id = oi.product_id ∧ oi.quantity ≤ p.stock) :=
  ⟨(C1_insufficient_stock_guarantee exDb2 1 exForm).1 (by decide) (by decide) (by decide)
      (by decide),
   (C1_insufficient_stock_guarantee exDb 1 exForm).2 1 (by decide)⟩

/-! ### Claim C9: order price stability -/

/-- Claim C9: the price of each recorded order item is the line total of
the cart snapshot (unit price times quantity as fetched at checkout), and a
later change of any product price leaves every recorded order item price
unchanged. -/
theorem C9_order_price_stability (db : Db) (uid : Nat) (f : CheckoutForm) (oid pid : Nat)
    (newPrice : Int)
    (h : (checkout db uid (some f) none).result = .success oid) :
    (setProductPrice ((checkout db uid (some f) none).db) pid newPrice).order_items
      = ((checkout db uid (some f) none).db).order_items ∧
    ∃ newItems, ((checkout db uid (some f) none).db).order_items
        = db.order_items ++ newItems ∧
      ∀ oi ∈ newItems, ∃ p ∈ db.products, ∃ c ∈ db.cart,
        c.user_id = uid ∧ p.id = c.product_id ∧ oi.product_id = p.id ∧
        oi.price = p.price * c.quantity := by
  obtain ⟨hoid, db2, evs, hp, hdb, hev⟩ := checkout_success_shape db uid f none oid h
  obtain ⟨hoi, _, _, _, _, _⟩ := processItems_ok_spec _ _ _ _ _ _ _ hp
  refine ⟨rfl, (fetchCartItems db uid).map (fun i =>
      (⟨db.nextOrderId, i.product_id, i.quantity, i.total_price⟩ : OrderItem)), ?_, ?_⟩
  · rw [hdb]
    show db2.order_items = _
    rw [hoi]
    simp
  · intro oi hoim
    rw [List.mem_map] at hoim
    obtain ⟨i, him, hoie⟩ := hoim
    obtain ⟨p, hpm, c, hcm, hcu, hpc, hipid, hist, hipr, hiq, hitp⟩ :=
      fetchCartItems_mem_spec db uid i him
    refine ⟨p, hpm, c, hcm, hcu, hpc, ?_, ?_⟩
    · rw [← hoie]
      exact hipid
    · rw [← hoie]
      exact hitp

/-- Concrete instance of claim C9: after the example checkout, setting the
price of product 5 to 99 leaves the two recorded order item prices (4 and
3) unchanged, and each recorded price is the snapshot unit price times the
line quantity. -/
theorem C9_order_price_stability_witness :
    (setProductPrice ((checkout exDb 1 (some exForm) none).db) 5 99).order_items
      = ((checkout exDb 1 (some exForm) none).db).order_items ∧
    ∃ newItems, ((checkout exDb 1 (some exForm) none).db).order_items
        = exDb.order_items ++ newItems ∧
      ∀ oi ∈ newItems, ∃ p ∈ exDb.products, ∃ c ∈ exDb.cart,
        c.user_id = 1 ∧ p.id = c.product_id ∧ oi.product_id = p.id ∧
        oi.price = p.price * c.quantity :=
  C9_order_price_stability exDb 1 exForm 1 5 99 (by decide)

/-! ### Claim C10: order total and item consistency -/

/-- Claim C10: a successful checkout persists exactly one order row whose
total price is the sum of the recorded prices of the order items it
creates, and each recorded item price is the unit price of the product at
checkout time multiplied by the quantity of the cart line. -/
theorem C10_order_total_consistency (db : Db) (uid : Nat) (f : CheckoutForm) (oid : Nat)
    (h : (checkout db uid (some f) none).result = .success oid) :
    ∃ o newItems,
      (checkout db uid (some f) none).db.orders = db.orders ++ [o] ∧
      o.id = oid ∧ o.user_id = uid ∧
      (checkout db uid (some f) none).db.order_items = db.order_items ++ newItems ∧
      o.total_price = (newItems.map (fun oi => oi.price)).sum ∧
      ∀ oi ∈ newItems, ∃ p ∈ db.products, ∃ c ∈ db.cart,
        c.user_id = uid ∧ p.id = c.product_id ∧ oi.product_id = p.id ∧
        oi.quantity = c.quantity ∧ oi.price = p.price * c.quantity := by
  obtain ⟨hoid, db2, evs, hp, hdb, hev⟩ := checkout_success_shape db uid f none oid h
  obtain ⟨hoi, hor, _, _, _, _⟩ := processItems_ok_spec _ _ _ _ _ _ _ hp
  subst hoid
  refine ⟨orderRowOf db uid f, (fetchCartItems db uid).map (fun i =>
      (⟨db.nextOrderId, i.product_id, i.quantity, i.total_price⟩ : OrderItem)),
      ?_, rfl, rfl, ?_, ?_, ?_⟩
  · rw [hdb]
    show db2.orders = _
    rw [hor]
    simp
  · rw [hdb]
    show db2.order_items = _
    rw [hoi]
    simp
  · show cartTotal db uid = _
    unfold cartTotal
    rw [List.map_map]
    rfl
  · intro oi hoim
    rw [List.mem_map] at hoim
    obtain ⟨i, him, hoie⟩ := hoim
    obtain ⟨p, hpm, c, hcm, hcu, hpc, hipid, hist, hipr, hiq, hitp⟩ :=
      fetchCartItems_mem_spec db uid i him
    refine ⟨p, hpm, c, hcm, hcu, hpc, ?_, ?_, ?_⟩
    · rw [← hoie]
      exact hipid
    · rw [← hoie]
      exact hiq
    · rw [← hoie]
      exact hitp

/-- Concrete instance of claim C10 at the example shop: the placed order
has total price 7, the sum of the recorded item prices 4 and 3, each being
unit price times quantity of its cart line. -/
theorem C10_order_total_consistency_witness :
    ∃ o newItems,
      (checkout exDb 1 (some exForm) none).db.orders = exDb.orders ++ [o] ∧
      o.id = 1 ∧ o.user_id = 1 ∧
      (checkout exDb 1 (some exForm) none).db.order_items
        = exDb.order_items ++ newItems ∧
      o.total_price = (newItems.map (fun oi => oi.price)).sum ∧
      ∀ oi ∈ newItems, ∃ p ∈ exDb.products, ∃ c ∈ exDb.cart,
        c.user_id = 1 ∧ p.id = c.product_id ∧ oi.product_id = p.id ∧
        oi.quantity = c.quantity ∧ oi.price = p.price * c.quantity :=
  C10_order_total_consistency exDb 1 exForm 1 (by decide)

end ECommerce
